import Mathlib

/-!
Verification of the pyICSC framing engine (`src/pyICSC.py`) against its
natural-language specification.  The Python module is shallowly embedded:
byte buffers are `List Nat` (each element a byte value 0–255), Python's
`bytearray`/`array('B', ...)` construction failures (OverflowError /
TypeError) are modelled by `Option`, and the heterogeneous-key dispatch
dictionary is modelled by an association list over a tagged key type.
-/

namespace PyICSC

/-- `curses.ascii.SOH` = 0x01, start-of-header marker. -/
def SOH : Nat := 1

/-- `curses.ascii.STX` = 0x02, start-of-text marker. -/
def STX : Nat := 2

/-- `curses.ascii.ETX` = 0x03, end-of-text marker. -/
def ETX : Nat := 3

/-- `curses.ascii.EOT` = 0x04, end-of-transmission marker. -/
def EOT : Nat := 4

/-- `ICSC_SYS_PING = ENQ` = 0x05. -/
def ICSC_SYS_PING : Nat := 5

/-- `ICSC_SYS_PONG = ACK` = 0x06. -/
def ICSC_SYS_PONG : Nat := 6

/-- `ICSC_BROADCAST = NUL` = 0x00. -/
def ICSC_BROADCAST : Nat := 0

/-- `MIN_MSG_LEN = 9`. -/
def MIN_MSG_LEN : Nat := 9

/-- Fixed field offsets from the source: `SOH_IDX = 0`, `DEST_ID_IDX = 1`,
`ORIG_ID_IDX = 2`, `CMD_IDX = 3`, `DAT_LEN_IDX = 4`, `STX_IDX = 5`. -/
def SOH_IDX : Nat := 0

def DEST_ID_IDX : Nat := 1

def ORIG_ID_IDX : Nat := 2

def CMD_IDX : Nat := 3

def DAT_LEN_IDX : Nat := 4

def STX_IDX : Nat := 5

/-- The `FlowError` enumeration of the source.  (In the Python `IntEnum`,
`TO_SHORT_MSG` and `UNEXPECTED_ORIGIN` share the numeric value 3, making the
latter an alias; the distinct members are modelled as distinct constructors
and the numeric values by `FlowError.val`.) -/
inductive FlowError where
  | NO_ERROR
  | BAD_FORMAT
  | VOID_MSG
  | TO_SHORT_MSG
  | UNEXPECTED_CMD
  | WRONG_DEST_STATION
  | BAD_LEN_FIELD
  | BAD_CHECKSUM
  | MISSING_SOH
  | MISSING_STX
  | MISSING_ETX
  | MISSING_EOT
deriving DecidableEq, Repr

/-- The numeric value of each `FlowError` member in the Python `IntEnum`. -/
def FlowError.val : FlowError → Nat
  | .NO_ERROR => 0
  | .BAD_FORMAT => 1
  | .VOID_MSG => 2
  | .TO_SHORT_MSG => 3
  | .UNEXPECTED_CMD => 4
  | .WRONG_DEST_STATION => 5
  | .BAD_LEN_FIELD => 6
  | .BAD_CHECKSUM => 7
  | .MISSING_SOH => 8
  | .MISSING_STX => 9
  | .MISSING_ETX => 10
  | .MISSING_EOT => 11

/-- The decoded message record returned by `extract_fields`.  In the Python
source `dest_id`, `orig_id` and `cmd` are the one-character strings
`chr(byte)`; since `chr` is a bijection onto codepoints, the record stores the
codepoint (= the byte value) directly. -/
structure Msg where
  dest_id : Nat
  orig_id : Nat
  cmd : Nat
  dat_len : Nat
  data : List Nat
deriving DecidableEq, Repr

/-- `ICSC.calculate_checksum(header, data) = (sum(header) + sum(data)) % 256`. -/
def calculate_checksum (header data : List Nat) : Nat :=
  (header.sum + data.sum) % 256

/-- `ICSC.validate_fields(data, etx_idx, eot_idx)`: the four marker checks in
source order SOH, STX, ETX, EOT.  Indexing is total (`getD _ 0`); in every
call site of the source the indices are in bounds, so the default is never
observed. -/
def validate_fields (data : List Nat) (etx_idx eot_idx : Nat) : FlowError :=
  if data.getD SOH_IDX 0 ≠ SOH then .MISSING_SOH
  else if data.getD STX_IDX 0 ≠ STX then .MISSING_STX
  else if data.getD etx_idx 0 ≠ ETX then .MISSING_ETX
  else if data.getD eot_idx 0 ≠ EOT then .MISSING_EOT
  else .NO_ERROR

/-- `ICSC.extract_fields(data)`.  `station` is `self.station`; `allowBad` is
`self.config.ALLOW_DATA_WITH_BAD_CHECKSUM`.  The Python slice `data[6:-3]`
equals `(data.drop 6).take (data.length - 9)` (the stop offset `len - 3`
sits 9 short of the end after dropping 6).  The empty dict `{}` of the error
returns is modelled by `none`. -/
def extract_fields (station : Nat) (allowBad : Bool) (data : List Nat) :
    FlowError × Option Msg :=
  let len_ := data.length
  if len_ < MIN_MSG_LEN then (.TO_SHORT_MSG, none)
  else if len_ ≠ MIN_MSG_LEN + data.getD DAT_LEN_IDX 0 then (.BAD_LEN_FIELD, none)
  else if data.getD DEST_ID_IDX 0 ≠ station ∧ data.getD DEST_ID_IDX 0 ≠ ICSC_BROADCAST then
    (.WRONG_DEST_STATION, none)
  else
    let etx_idx := data.getD DAT_LEN_IDX 0 + STX_IDX + 1
    let eot_idx := etx_idx + 2
    let field_error := validate_fields data etx_idx eot_idx
    if field_error ≠ .NO_ERROR then (field_error, none)
    else
      let payload := (data.drop (STX_IDX + 1)).take (len_ - 9)
      if allowBad = false ∧
          calculate_checksum
            [data.getD DEST_ID_IDX 0, data.getD ORIG_ID_IDX 0,
             data.getD CMD_IDX 0, data.getD DAT_LEN_IDX 0] payload
            ≠ data.getD (len_ - 2) 0 then
        (.BAD_CHECKSUM, none)
      else
        (.NO_ERROR, some
          { dest_id := data.getD DEST_ID_IDX 0
            orig_id := data.getD ORIG_ID_IDX 0
            cmd := data.getD CMD_IDX 0
            dat_len := data.getD DAT_LEN_IDX 0
            data := payload })

/-- UTF-8 encoding of one codepoint, as performed by Python `str.encode()`. -/
def utf8Bytes (c : Nat) : List Nat :=
  if c < 0x80 then [c]
  else if c < 0x800 then [0xC0 + c / 64, 0x80 + c % 64]
  else if c < 0x10000 then [0xE0 + c / 4096, 0x80 + c / 64 % 64, 0x80 + c % 64]
  else [0xF0 + c / 262144, 0x80 + c / 4096 % 64, 0x80 + c / 64 % 64, 0x80 + c % 64]

/-- `str_to_bytes` of `__standardize_params`: a Python string (a list of
codepoints) is turned into its encoded byte sequence via `.encode()`. -/
def str_to_bytes (s : List Nat) : List Nat :=
  (s.map utf8Bytes).flatten

/-- Decimal digit codepoints of a natural number, most significant first
(fuel-indexed so that it reduces definitionally). -/
def decDigitsAux : Nat → Nat → List Nat
  | 0, _ => []
  | fuel + 1, n =>
    if n < 10 then [48 + n] else decDigitsAux fuel (n / 10) ++ [48 + n % 10]

/-- Python `str` of a nonnegative integer: its decimal digit codepoints. -/
def pyStrNat (n : Nat) : List Nat := decDigitsAux (n + 1) n

/-- Python `str` of an integer (codepoints; a minus sign 0x2D for negatives). -/
def pyStrInt (n : Int) : List Nat :=
  if n < 0 then 45 :: pyStrNat n.natAbs else pyStrNat n.toNat

/-- The `data` argument of `ICSC.send` as the source discriminates it:
a raw byte sequence (list / `array`), a Python string (codepoints), an `int`,
or a `float`.  A `float` carries the codepoints of its Python `str`
representation (supplied externally, since the model has no floating point). -/
inductive PyData where
  | bytes (l : List Nat)
  | text (s : List Nat)
  | int (n : Int)
  | float (repr : List Nat)
deriving DecidableEq, Repr

/-- The `data` leg of `ICSC.__standardize_params`, plus the
`array.array('B', data)` range check that `send` performs on the result.
`none` models a raised exception (OverflowError for an int outside 0–255,
TypeError for a float handed to `array('B', ...)`), after which `send`
writes nothing.  A string or numeric-as-string payload is `.encode()`d, so
its bytes are all < 256 by construction. -/
def standardize_data (sendNumAsStr : Bool) : PyData → Option (List Nat)
  | .bytes l => if l.all (· < 256) then some l else none
  | .text s => some (str_to_bytes s)
  | .int n =>
    if sendNumAsStr then some (str_to_bytes (pyStrInt n))
    else if 0 ≤ n ∧ n < 256 then some [n.toNat] else none
  | .float r => if sendNumAsStr then some (str_to_bytes r) else none

/-- `ICSC.send(dest_id, cmd, data)`: the byte sequence written to the
transport, or `none` when byte-array construction raises and nothing is
written.  `station` is the sender's own id (`self.station`); a
one-character-string destination or command has already been normalized to
its codepoint by `ord`, so both are taken as numbers here.  The header
array `array('B', [SOH, dest, station, cmd, len(data), STX])` raises unless
every entry is a byte. -/
def send (sendNumAsStr : Bool) (station dest_id cmd : Nat) (data : PyData) :
    Option (List Nat) :=
  match standardize_data sendNumAsStr data with
  | none => none
  | some d =>
    if dest_id < 256 ∧ station < 256 ∧ cmd < 256 ∧ d.length < 256 then
      some ([SOH, dest_id, station, cmd, d.length, STX] ++ d ++
        [ETX, calculate_checksum [dest_id, station, cmd, d.length] d, EOT])
    else none

/-- `ICSC.is_truncated_msg(in_data, error)`:
`in_data.endswith(bytearray([EOT])) and error == FlowError.BAD_LEN_FIELD`. -/
def is_truncated_msg (in_data : List Nat) (error : FlowError) : Bool :=
  in_data.getLast? == some EOT && error == FlowError.BAD_LEN_FIELD

/-- The comparison `remaining_eot != EOT` of `ICSC.get_msg`.  In Python,
`remaining_eot` is the `bytes` object returned by `read_from_serial` while
`EOT` is the `int` 4; a `bytes` value never compares equal to an `int`, so
the inequality is `True` for every byte sequence.  The parameters keep the
shape of the source expression. -/
def py_bytes_ne_int (_remaining : List Nat) (_n : Nat) : Bool := true

/-- `ICSC.get_msg(in_data)`.  `serial_read` is the byte sequence the single
recovery call `read_from_serial()` returns when it is made (the transport is
external state, so its response is a parameter). -/
def get_msg (station : Nat) (allowBad : Bool) (in_data : List Nat)
    (serial_read : List Nat) : FlowError × Option Msg :=
  let r := extract_fields station allowBad in_data
  if is_truncated_msg in_data r.1 then
    if py_bytes_ne_int serial_read EOT then (.BAD_FORMAT, none)
    else extract_fields station allowBad (in_data ++ [EOT])
  else r

/-- The handlers stored in `self.commands_functions`: the bound method
`self.__respond_to_ping` registered by `__init__`, or an arbitrary
caller-supplied function (identified by a tag). -/
inductive Handler where
  | respondToPing
  | user (tag : Nat)
deriving DecidableEq, Repr

/-- A Python dict key as used for `commands_functions`: `__init__` inserts
the `int` 5, while `add_command` inserts one-character strings.  An `int`
key and a `str` key are never equal in Python. -/
inductive PyKey where
  | intKey (n : Int)
  | strKey (s : List Nat)
deriving DecidableEq, Repr

/-- Python dict assignment `t[k] = v` on an association list that preserves
insertion order: if the key is present its entry is updated in place,
otherwise the pair is appended at the end.  Tables built from `[]` by
`dictSet` have unique keys, exactly like a Python dict. -/
def dictSet : List (PyKey × Handler) → PyKey → Handler → List (PyKey × Handler)
  | [], k, v => [(k, v)]
  | p :: rest, k, v => if p.1 = k then (k, v) :: rest else p :: dictSet rest k v

/-- Python dict lookup `t[k]` / `k in t`. -/
def dictGet (t : List (PyKey × Handler)) (k : PyKey) : Option Handler :=
  (t.find? (fun p => decide (p.1 = k))).map Prod.snd

/-- The dispatch table right after `ICSC.__init__`:
`self.commands_functions[ICSC_SYS_PING] = self.__respond_to_ping` stores the
ping handler under the *integer* key 5 (no `chr` conversion there). -/
def initial_table : List (PyKey × Handler) :=
  dictSet [] (.intKey (ICSC_SYS_PING : Nat)) .respondToPing

/-- `ICSC.add_command(cmd, f)`: an `int` command id is converted with
`chr` to a one-character string before insertion; a string id is used
as given. -/
def add_command (t : List (PyKey × Handler)) (cmd : PyKey) (f : Handler) :
    List (PyKey × Handler) :=
  match cmd with
  | .intKey n => dictSet t (.strKey [n.toNat]) f
  | .strKey s => dictSet t (.strKey s) f

/-- The dispatch step of `ICSC.process`: after a successful decode it
evaluates `msg['cmd'] in self.commands_functions` and on success calls the
stored handler.  `msg['cmd']` is the one-character string
`chr(data[CMD_IDX])`, so the lookup key is a `str` key. -/
def dispatch_lookup (t : List (PyKey × Handler)) (m : Msg) : Option Handler :=
  dictGet t (.strKey [m.cmd])

/-- `ICSC.__respond_to_ping(msg)`: `self.send(msg['orig_id'], ICSC_SYS_PONG, [])`.
The payload `[]` is an (empty) byte sequence.  Returns the pong frame the
built-in handler would write. -/
def respond_to_ping (sendNumAsStr : Bool) (station : Nat) (m : Msg) :
    Option (List Nat) :=
  send sendNumAsStr station m.orig_id ICSC_SYS_PONG (.bytes [])

/-- `add_command`'s key normalization: an `int` id becomes the one-character
string `chr(id)` (a codepoint), a string id stays as is. -/
def normKey : PyKey → PyKey
  | .intKey n => .strKey [n.toNat]
  | .strKey s => .strKey s

/-- The validation outcome of `extract_fields` exactly as the specification
words it (spec §4.3 / claim C4): the checks applied in this fixed
short-circuit order — buffer shorter than 9 bytes; buffer length different
from 9 plus the byte at offset 4; destination byte neither the station's own
id nor the broadcast id 0x00; then the markers SOH (offset 0), STX (offset
5), ETX (offset LEN+6), EOT (offset LEN+8) in that exact order; only then
the checksum. -/
def spec_ordered_validate (station : Nat) (allowBad : Bool) (buf : List Nat) :
    FlowError :=
  if buf.length < 9 then .TO_SHORT_MSG
  else if buf.length ≠ 9 + buf.getD 4 0 then .BAD_LEN_FIELD
  else if buf.getD 1 0 ≠ station ∧ buf.getD 1 0 ≠ 0 then .WRONG_DEST_STATION
  else if buf.getD 0 0 ≠ SOH then .MISSING_SOH
  else if buf.getD 5 0 ≠ STX then .MISSING_STX
  else if buf.getD (buf.getD 4 0 + 6) 0 ≠ ETX then .MISSING_ETX
  else if buf.getD (buf.getD 4 0 + 8) 0 ≠ EOT then .MISSING_EOT
  else if allowBad = false ∧
      calculate_checksum [buf.getD 1 0, buf.getD 2 0, buf.getD 3 0, buf.getD 4 0]
        ((buf.drop 6).take (buf.length - 9)) ≠ buf.getD (buf.length - 2) 0 then
    .BAD_CHECKSUM
  else .NO_ERROR

section DictLemmas

theorem add_command_eq_dictSet (t : List (PyKey × Handler)) (k : PyKey)
    (f : Handler) : add_command t k f = dictSet t (normKey k) f := by
  cases k <;> rfl

theorem dictGet_dictSet_self (t : List (PyKey × Handler)) (k : PyKey)
    (v : Handler) : dictGet (dictSet t k v) k = some v := by
  induction t with
  | nil => simp [dictSet, dictGet]
  | cons p rest ih =>
    by_cases hp : p.1 = k
    · simp [dictSet, dictGet, hp]
    · simpa [dictSet, dictGet, hp] using ih

theorem dictGet_dictSet_ne (t : List (PyKey × Handler)) (k k' : PyKey)
    (v : Handler) (h : k' ≠ k) : dictGet (dictSet t k v) k' = dictGet t k' := by
  induction t with
  | nil => simp [dictSet, dictGet, Ne.symm h]
  | cons p rest ih =>
    by_cases hp : p.1 = k
    · simp [dictSet, dictGet, hp, Ne.symm h]
    · by_cases hq : p.1 = k'
      · simp [dictSet, dictGet, hp, hq, h]
      · simpa [dictSet, dictGet, hp, hq] using ih

end DictLemmas

/-- C5: calling `send` with destination 'A' (65), command 'X' (88), and the
numeric payload 5323 from a station with id 'B' (66) while
`SEND_NUMBER_AS_STR` is true writes exactly the byte sequence
`01 41 42 58 04 02 35 33 32 33 03 ac 04` (hex) to the transport. -/
theorem C5_send_number_as_string_example :
    send true 66 65 88 (.int 5323) =
      some [0x01, 0x41, 0x42, 0x58, 0x04, 0x02, 0x35, 0x33, 0x32, 0x33, 0x03,
            0xac, 0x04] := by
  decide

/-- C2 (code-bug evidence): the buffer `[1,0,0,1,1,2,2,3,4]` — a frame whose
checksum byte happens to be the EOT value, cut one byte short of its declared
length by the EOT-delimited read — validates to `BAD_LEN_FIELD` and ends in
EOT, so `get_msg` takes the recovery path; the recovery read returns exactly
the single EOT byte, yet `get_msg` answers `BAD_FORMAT` (the source compares
the `bytes` object returned by `read_from_serial` with the `int` EOT, which
is unequal for every byte sequence), although re-validating the buffer
extended by that EOT byte succeeds, as the claim says it should. -/
theorem C2_recovery_always_bad_format :
    extract_fields 0 false [1, 0, 0, 1, 1, 2, 2, 3, 4] =
      (.BAD_LEN_FIELD, none) ∧
    is_truncated_msg [1, 0, 0, 1, 1, 2, 2, 3, 4] .BAD_LEN_FIELD = true ∧
    get_msg 0 false [1, 0, 0, 1, 1, 2, 2, 3, 4] [EOT] = (.BAD_FORMAT, none) ∧
    extract_fields 0 false ([1, 0, 0, 1, 1, 2, 2, 3, 4] ++ [EOT]) =
      (.NO_ERROR, some ⟨0, 0, 1, 1, [2]⟩) := by
  decide

/-- C3 (code-bug evidence): the ping frame `[1,65,66,5,0,2,3,136,4]`
decodes at station 65 to a record with `cmd` = `ICSC_SYS_PING`, and
`__init__` did register `__respond_to_ping` — but under the *integer* key 5,
while `process` looks the record's `cmd` up as the one-character *string*
`chr(5)`; the lookup misses, so the built-in handler is never invoked and no
pong frame is transmitted, even though the handler, had it run, would have
sent the pong frame `[1,66,65,6,0,2,3,137,4]` back to origin 66 with an
empty payload. -/
theorem C3_ping_handler_unreachable :
    extract_fields 65 false [1, 65, 66, 5, 0, 2, 3, 136, 4] =
      (.NO_ERROR, some ⟨65, 66, ICSC_SYS_PING, 0, []⟩) ∧
    dictGet initial_table (.intKey (ICSC_SYS_PING : Nat)) =
      some .respondToPing ∧
    dispatch_lookup initial_table ⟨65, 66, ICSC_SYS_PING, 0, []⟩ = none ∧
    respond_to_ping false 65 ⟨65, 66, ICSC_SYS_PING, 0, []⟩ =
      some [SOH, 66, 65, ICSC_SYS_PONG, 0, STX, ETX, 137, EOT] := by
  decide

/-- C7 (counterexample): `add_command(ICSC_SYS_PING, f)` does *not* overwrite
the built-in ping registration — the built-in entry sits under the integer
key 5 while `add_command` inserts under the string key `chr(5)`, so after
the call the table still maps the integer key to `__respond_to_ping` and has
grown to two entries instead of staying at one. -/
theorem C7_builtin_not_overwritten :
    dictGet (add_command initial_table (.intKey (ICSC_SYS_PING : Nat))
        (.user 0)) (.intKey (ICSC_SYS_PING : Nat)) = some .respondToPing ∧
    (add_command initial_table (.intKey (ICSC_SYS_PING : Nat))
        (.user 0)).length = 2 := by
  decide

/-- C7 (amended): `add_command` keys every registration by the one-character
string `chr(cmd)`, so it overwrites any previous `add_command` registration
for the same identifier; the built-in ping handler, stored under the integer
key at construction, is *not* overwritten and remains in the table, but
dispatch looks commands up by their string key only, so after
`add_command(ICSC_SYS_PING, f)` a processed ping frame dispatches to `f` and
never to the built-in responder. -/
theorem C7_add_command_overwrite_amended (t : List (PyKey × Handler))
    (k : PyKey) (f g : Handler) (d o L : Nat) (p : List Nat) :
    dictGet (add_command (add_command t k f) k g) (normKey k) = some g ∧
    dispatch_lookup (add_command initial_table (.intKey (ICSC_SYS_PING : Nat)) f)
      ⟨d, o, ICSC_SYS_PING, L, p⟩ = some f ∧
    dictGet (add_command initial_table (.intKey (ICSC_SYS_PING : Nat)) f)
      (.intKey (ICSC_SYS_PING : Nat)) = some .respondToPing := by
  refine ⟨?_, ?_, ?_⟩
  · rw [add_command_eq_dictSet, add_command_eq_dictSet]
    exact dictGet_dictSet_self _ _ _
  · rfl
  · rfl

/-- C4: for every input buffer, `extract_fields` applies its checks in the
fixed short-circuit order the spec gives — too-short, bad length field,
wrong destination, then markers SOH / STX / ETX / EOT in that exact order,
and only then the checksum: its error outcome coincides with
`spec_ordered_validate`, the literal transcription of that ordered list of
checks. -/
theorem C4_check_order (station : Nat) (allowBad : Bool) (buf : List Nat) :
    (extract_fields station allowBad buf).1 =
      spec_ordered_validate station allowBad buf := by
  simp only [extract_fields, spec_ordered_validate, validate_fields,
    MIN_MSG_LEN, DAT_LEN_IDX, DEST_ID_IDX, ORIG_ID_IDX, CMD_IDX, SOH_IDX,
    STX_IDX, ICSC_BROADCAST, SOH, STX, ETX, EOT, Nat.add_assoc]
  norm_num
  split_ifs <;> simp_all

/-- C9: with `SEND_NUMBER_AS_STR` false, `send` with an integer payload
outside 0–255 (and likewise with any float payload, in particular a
non-integer one) hits an exception in `array.array('B', ...)` construction
before any bytes are produced, so nothing is written to the transport
(`send` yields `none`). -/
theorem C9_numeric_payload_out_of_range (station dest cmd : Nat) (n : Int)
    (r : List Nat) (hn : n < 0 ∨ 255 < n) :
    send false station dest cmd (.int n) = none ∧
    send false station dest cmd (.float r) = none := by
  constructor
  · have : ¬(0 ≤ n ∧ n < 256) := by omega
    simp [send, standardize_data, this]
  · simp [send, standardize_data]

/-- Witness for C9 at station 'B' (66), destination 'A' (65), command
'X' (88), integer payload 5323 and an arbitrary float payload. -/
theorem C9_witness :
    send false 66 65 88 (.int 5323) = none ∧
    send false 66 65 88 (.float [53, 46, 53]) = none :=
  C9_numeric_payload_out_of_range 66 65 88 5323 [53, 46, 53]
    (Or.inr (by decide))

section RoundTrip

theorem extract_fields_encoded (station dest orig cmd : Nat) (payload : List Nat)
    (allowBad : Bool) (hsta : dest = station ∨ dest = 0) :
    extract_fields station allowBad
      ([SOH, dest, orig, cmd, payload.length, STX] ++ payload ++
       [ETX, calculate_checksum [dest, orig, cmd, payload.length] payload, EOT]) =
      (.NO_ERROR, some ⟨dest, orig, cmd, payload.length, payload⟩) := by
  set L := payload.length with hLdef
  set cs := calculate_checksum [dest, orig, cmd, L] payload with hcs
  set frame := [SOH, dest, orig, cmd, L, STX] ++ payload ++ [ETX, cs, EOT] with hframe
  have hpre : ([SOH, dest, orig, cmd, L, STX] ++ payload).length = 6 + L := by
    simp only [List.length_append, List.length_cons, List.length_nil]
    try omega
  have hL : frame.length = 9 + L := by
    rw [hframe, List.length_append, hpre]
    simp only [List.length_cons, List.length_nil]
    try omega
  have g0 : frame.getD 0 0 = SOH := rfl
  have g1 : frame.getD 1 0 = dest := rfl
  have g2 : frame.getD 2 0 = orig := rfl
  have g3 : frame.getD 3 0 = cmd := rfl
  have g4 : frame.getD 4 0 = L := rfl
  have g5 : frame.getD 5 0 = STX := rfl
  have hsuf : ∀ j, frame.getD (L + 6 + j) 0 = [ETX, cs, EOT].getD j 0 := by
    intro j
    rw [hframe, List.getD_append_right]
    · congr 1
      rw [hpre]
      omega
    · rw [hpre]; omega
  have hETX : frame.getD (L + 5 + 1) 0 = ETX := hsuf 0
  have hEOT : frame.getD (L + 5 + 1 + 2) 0 = EOT := hsuf 2
  have hCSv : frame.getD (9 + L - 2) 0 = cs := by
    have h := hsuf 1
    rw [show L + 6 + 1 = 9 + L - 2 by omega] at h
    exact h
  have hslice : (frame.drop (5 + 1)).take (9 + L - 9) = payload := by
    rw [hframe, List.append_assoc]
    rw [show (9 + L - 9) = L by omega]
    rw [show (5 + 1 : Nat) = ([SOH, dest, orig, cmd, L, STX] : List Nat).length by rfl]
    rw [List.drop_left]
    rw [hLdef, List.take_left]
  simp only [extract_fields, validate_fields, MIN_MSG_LEN, DAT_LEN_IDX, DEST_ID_IDX,
    ORIG_ID_IDX, CMD_IDX, SOH_IDX, STX_IDX, ICSC_BROADCAST, hL, g0, g1, g2, g3, g4, g5,
    hETX, hEOT, hCSv, hslice, ← hcs]
  rcases hsta with hsta | hsta <;> simp [hsta]

end RoundTrip

/-- C1: for every destination id, command id, and payload byte sequence of
length at most 246, encoding with `send` and running the produced bytes
through `extract_fields` at a station whose id equals the destination (or at
any station when the destination is the broadcast id 0x00) returns
`FlowError.NO_ERROR` with a record whose `dest_id`, `cmd`, and `data` fields
are the original destination, command, and payload bytes. -/
theorem C1_roundtrip (sendNumAsStr : Bool) (station origin dest cmd : Nat)
    (payload : List Nat) (allowBad : Bool)
    (hdest : dest < 256) (horig : origin < 256) (hcmd : cmd < 256)
    (hp : ∀ b ∈ payload, b < 256) (hlen : payload.length ≤ 246)
    (hsta : station = dest ∨ dest = ICSC_BROADCAST) :
    ∃ frame, send sendNumAsStr origin dest cmd (.bytes payload) = some frame ∧
      extract_fields station allowBad frame =
        (.NO_ERROR, some ⟨dest, origin, cmd, payload.length, payload⟩) := by
  have h256 : payload.length < 256 := by omega
  have hall : payload.all (· < 256) = true := by
    rw [List.all_eq_true]
    intro b hb
    exact decide_eq_true (hp b hb)
  refine ⟨[SOH, dest, origin, cmd, payload.length, STX] ++ payload ++
    [ETX, calculate_checksum [dest, origin, cmd, payload.length] payload, EOT],
    ?_, ?_⟩
  · simp only [send, standardize_data, hall, if_true]
    rw [if_pos ⟨hdest, horig, hcmd, h256⟩]
  · exact extract_fields_encoded station dest origin cmd payload allowBad
      (hsta.elim (fun h => Or.inl h.symm) fun h => Or.inr h)

/-- Witness for C1: destination 'A' (65), command 'X' (88), payload
`[10, 20]`, sent from station 'B' (66) and decoded at station 65. -/
theorem C1_witness :
    ∃ frame, send false 66 65 88 (.bytes [10, 20]) = some frame ∧
      extract_fields 65 false frame =
        (.NO_ERROR, some ⟨65, 66, 88, 2, [10, 20]⟩) :=
  C1_roundtrip false 65 66 65 88 [10, 20] false (by decide) (by decide)
    (by decide) (by decide) (by decide) (Or.inl rfl)

/-- C6: `calculate_checksum(header, data)` is the sum of all header field
values plus all payload byte values reduced modulo 256; and for every buffer
passing the structural checks (length, destination, markers), the checksum
comparison index `len - 2` is `eot_idx - 1`, and `extract_fields` recomputes
the checksum over the header bytes `[dest, orig, cmd, len]` and the payload
slice and compares it with that byte, answering `BAD_CHECKSUM` on mismatch —
unless `ALLOW_DATA_WITH_BAD_CHECKSUM` is set, in which case the comparison
is skipped and the frame accepted. -/
theorem C6_checksum_rule (station : Nat) (allowBad : Bool) (buf : List Nat)
    (h1 : MIN_MSG_LEN ≤ buf.length)
    (h2 : buf.length = MIN_MSG_LEN + buf.getD DAT_LEN_IDX 0)
    (h3 : buf.getD DEST_ID_IDX 0 = station ∨
      buf.getD DEST_ID_IDX 0 = ICSC_BROADCAST)
    (h4 : validate_fields buf (buf.getD DAT_LEN_IDX 0 + STX_IDX + 1)
            (buf.getD DAT_LEN_IDX 0 + STX_IDX + 1 + 2) = .NO_ERROR) :
    (∀ header data,
      calculate_checksum header data = (header.sum + data.sum) % 256) ∧
    buf.length - 2 = buf.getD DAT_LEN_IDX 0 + STX_IDX + 1 + 2 - 1 ∧
    extract_fields station allowBad buf =
      (if allowBad = false ∧
          calculate_checksum
            [buf.getD DEST_ID_IDX 0, buf.getD ORIG_ID_IDX 0, buf.getD CMD_IDX 0,
             buf.getD DAT_LEN_IDX 0]
            ((buf.drop (STX_IDX + 1)).take (buf.length - 9))
            ≠ buf.getD (buf.length - 2) 0
       then (.BAD_CHECKSUM, none)
       else (.NO_ERROR, some ⟨buf.getD DEST_ID_IDX 0, buf.getD ORIG_ID_IDX 0,
              buf.getD CMD_IDX 0, buf.getD DAT_LEN_IDX 0,
              (buf.drop (STX_IDX + 1)).take (buf.length - 9)⟩)) := by
  simp only [MIN_MSG_LEN, DAT_LEN_IDX, DEST_ID_IDX, ORIG_ID_IDX, CMD_IDX, STX_IDX,
    ICSC_BROADCAST] at h1 h2 h3 h4 ⊢
  refine ⟨fun header data => rfl, by omega, ?_⟩
  simp only [extract_fields, MIN_MSG_LEN, DAT_LEN_IDX, DEST_ID_IDX, ORIG_ID_IDX,
    CMD_IDX, STX_IDX, ICSC_BROADCAST]
  rw [if_neg (by omega)]
  rw [if_neg (by omega)]
  rw [if_neg (by tauto)]
  rw [if_neg (fun hne => hne h4)]

/-- Witness for C6: station 0 receiving `[1,0,0,1,1,2,2,3,9,4]`, whose
checksum byte 9 differs from the recomputed value 4. -/
theorem C6_witness :
    extract_fields 0 false [1, 0, 0, 1, 1, 2, 2, 3, 9, 4] =
      (.BAD_CHECKSUM, none) := by
  have h := C6_checksum_rule 0 false [1, 0, 0, 1, 1, 2, 2, 3, 9, 4]
    (by decide) (by decide) (by decide) (by decide)
  rw [h.2.2]
  decide

/-- C8: for buffers passing the length and marker checks, a destination byte
0x00 (broadcast) is accepted by a receiver of any station id (decoding
succeeds when the checksum matches or is allowed to mismatch), while a
destination byte that is neither 0x00 nor the receiver's own station id
makes `extract_fields` return `WRONG_DEST_STATION` with an empty record. -/
theorem C8_broadcast_acceptance (station : Nat) (allowBad : Bool)
    (buf : List Nat)
    (h1 : MIN_MSG_LEN ≤ buf.length)
    (h2 : buf.length = MIN_MSG_LEN + buf.getD DAT_LEN_IDX 0)
    (h4 : validate_fields buf (buf.getD DAT_LEN_IDX 0 + STX_IDX + 1)
            (buf.getD DAT_LEN_IDX 0 + STX_IDX + 1 + 2) = .NO_ERROR) :
    (buf.getD DEST_ID_IDX 0 = ICSC_BROADCAST →
      (allowBad = true ∨
        calculate_checksum
          [buf.getD DEST_ID_IDX 0, buf.getD ORIG_ID_IDX 0, buf.getD CMD_IDX 0,
           buf.getD DAT_LEN_IDX 0] ((buf.drop (STX_IDX + 1)).take (buf.length - 9))
          = buf.getD (buf.length - 2) 0) →
      ∃ m, extract_fields station allowBad buf = (.NO_ERROR, some m)) ∧
    (buf.getD DEST_ID_IDX 0 ≠ ICSC_BROADCAST →
      buf.getD DEST_ID_IDX 0 ≠ station →
      extract_fields station allowBad buf = (.WRONG_DEST_STATION, none)) := by
  simp only [MIN_MSG_LEN, DAT_LEN_IDX, DEST_ID_IDX, ORIG_ID_IDX, CMD_IDX, STX_IDX,
    ICSC_BROADCAST] at h1 h2 h4 ⊢
  constructor
  · intro hbc hcs
    simp only [extract_fields, MIN_MSG_LEN, DAT_LEN_IDX, DEST_ID_IDX, ORIG_ID_IDX,
      CMD_IDX, STX_IDX, ICSC_BROADCAST]
    rw [if_neg (by omega)]
    rw [if_neg (by omega)]
    rw [if_neg (by tauto)]
    rw [if_neg (fun hne => hne h4)]
    rw [if_neg ?hc]
    · exact ⟨_, rfl⟩
    case hc =>
      rintro ⟨hab, hne⟩
      rcases hcs with h | h
      · rw [h] at hab
        exact Bool.noConfusion hab
      · exact hne h
  · intro hd0 hds
    simp only [extract_fields, MIN_MSG_LEN, DAT_LEN_IDX, DEST_ID_IDX, ORIG_ID_IDX,
      CMD_IDX, STX_IDX, ICSC_BROADCAST]
    rw [if_neg (by omega)]
    rw [if_neg (by omega)]
    rw [if_pos ⟨hds, hd0⟩]

/-- Witness for C8: the broadcast frame `[1,0,0,1,1,2,2,3,4,4]` decodes at
the unrelated station 7, and `[1,5,0,1,1,2,99,3,8,4]`, addressed to station
5, is rejected at station 7 with `WRONG_DEST_STATION`. -/
theorem C8_witness :
    (∃ m, extract_fields 7 false [1, 0, 0, 1, 1, 2, 2, 3, 4, 4] =
      (.NO_ERROR, some m)) ∧
    extract_fields 7 false [1, 5, 0, 1, 1, 2, 99, 3, 8, 4] =
      (.WRONG_DEST_STATION, none) := by
  constructor
  · exact (C8_broadcast_acceptance 7 false [1, 0, 0, 1, 1, 2, 2, 3, 4, 4]
      (by decide) (by decide) (by decide)).1 (by decide) (Or.inr (by decide))
  · exact (C8_broadcast_acceptance 7 false [1, 5, 0, 1, 1, 2, 99, 3, 8, 4]
      (by decide) (by decide) (by decide)).2 (by decide) (by decide)

/-- C10: `add_command` keys every registration by a one-character string (an
integer id `c` is inserted under `chr(c)`, the same key as the string form);
a validated record's `cmd` field is the CMD byte of the buffer; and after
registering `f` for `c` over the freshly constructed table, dispatch finds
`f` exactly when the processed frame's CMD byte equals `c`. -/
theorem C10_dispatch_keying (t : List (PyKey × Handler)) (c : Nat)
    (f : Handler) (station : Nat) (allowBad : Bool) (buf : List Nat) (m : Msg)
    (hm : extract_fields station allowBad buf = (.NO_ERROR, some m)) :
    add_command t (.intKey c) f = add_command t (.strKey [c]) f ∧
    m.cmd = buf.getD CMD_IDX 0 ∧
    (dispatch_lookup (add_command initial_table (.intKey c) f) m = some f ↔
      m.cmd = c) := by
  refine ⟨by simp [add_command], ?_, ?_⟩
  · simp only [extract_fields] at hm
    repeat' split at hm
    all_goals simp_all
    all_goals exact congrArg Msg.cmd hm.symm
  · by_cases h : m.cmd = c
    · simp [dispatch_lookup, add_command_eq_dictSet, normKey, h,
        dictGet_dictSet_self]
    · have hk : (PyKey.strKey [m.cmd]) ≠ (PyKey.strKey [(c : Int).toNat]) := by
        simp [h]
      simp [dispatch_lookup, add_command_eq_dictSet, normKey,
        dictGet_dictSet_ne _ _ _ f hk, initial_table, dictGet, dictSet, h,
        Ne.symm h]

/-- Witness for C10 at command id 'P' (80), registered over the initial
table, with the validated frame `[1,65,66,80,0,2,3,211,4]` at station 65. -/
theorem C10_witness :
    add_command [] (.intKey (80 : Nat)) (.user 1) =
      add_command [] (.strKey [80]) (.user 1) ∧
    (⟨65, 66, 80, 0, []⟩ : Msg).cmd =
      [1, 65, 66, 80, 0, 2, 3, 211, 4].getD CMD_IDX 0 ∧
    (dispatch_lookup (add_command initial_table (.intKey (80 : Nat)) (.user 1))
        ⟨65, 66, 80, 0, []⟩ = some (.user 1) ↔
      (⟨65, 66, 80, 0, []⟩ : Msg).cmd = 80) :=
  C10_dispatch_keying [] 80 (.user 1) 65 false [1, 65, 66, 80, 0, 2, 3, 211, 4]
    ⟨65, 66, 80, 0, []⟩ (by decide)

end PyICSC
